import Mathlib

/-!
Verification of the priority scoring and override UI of the
ai-ticket-prioritization repository.

The repository sources available here are the React frontend components
(TicketCard, OverrideForm, PriorityBadge, PriorityBreakdown, UrgencyIndicator,
TicketDetailModal, CreateTicketForm, App, api service).  Their pure logic is
embedded below as computable Lean functions over exact rationals (`ℚ` stands
for the JavaScript number where no NaN can occur; `Option ℚ` stands for a
JavaScript number that may be NaN or absent, `none` being the degenerate
case).  The backend scoring engine (signal normalizer, priority engine,
override application) is not among the available sources — only its callers
and its displayed formula are — so those definitions are modelled from the
spec and are marked as such in their doc comments.
-/

namespace AITicket

/-- Discrete priority bands, in descending severity. -/
inductive Band
  | P0
  | P1
  | P2
  | P3
  deriving DecidableEq, Repr

/-- The string label a band carries in the frontend (`'P0'` … `'P3'`). -/
def Band.label : Band → String
  | .P0 => "P0"
  | .P1 => "P1"
  | .P2 => "P2"
  | .P3 => "P3"

/-- AI urgency levels (`'low' | 'medium' | 'high' | 'critical'`). -/
inductive UrgencyLevel
  | low
  | medium
  | high
  | critical
  deriving DecidableEq, Repr

/-- JavaScript `Math.round`: nearest integer, ties toward positive infinity. -/
def jsRound (q : ℚ) : Int := ⌊q + 1 / 2⌋

/-- JavaScript `x.toFixed(0)`: the rounded integer rendered as a string
(the ECMAScript spec picks the larger candidate on ties, i.e. half-up). -/
def jsToFixed0 (q : ℚ) : String := toString (jsRound q)

/-- JavaScript `x || d` on a possibly-NaN number: the default replaces
`NaN` and `0` (both falsy); every other value passes through. -/
def jsNumOr (x : Option ℚ) (d : ℚ) : ℚ :=
  match x with
  | none => d
  | some v => if v = 0 then d else v

/-- Drop leading whitespace characters from a character list. -/
def dropWhitespaceLeft : List Char → List Char
  | [] => []
  | c :: cs => if c.isWhitespace then dropWhitespaceLeft cs else c :: cs

/-- JavaScript `String.prototype.trim`: whitespace stripped from both ends
(modelled over the string's character list). -/
def jsTrim (s : String) : String :=
  ⟨(dropWhitespaceLeft ((dropWhitespaceLeft s.data).reverse)).reverse⟩

/-- JavaScript `String.prototype.toUpperCase`, modelled for ASCII strings
(character-wise uppercasing). -/
def jsToUpperCase (s : String) : String := ⟨s.data.map Char.toUpper⟩

/-! ## Spec-modelled backend: Signal Normalizer and Priority Engine

The functions in this section are the backend engine, which is not among the
available sources (the frontend only consumes its output and displays its
formula).  Each is modelled from the spec, §4.1–§4.2. -/

/-- Modelled from the spec: the backend `urgency_score` mapping of the Signal
Normalizer (§4.1) is missing from the sources; the spec maps
`critical→1.0, high→0.75, medium→0.5, low→0.25`. -/
def urgency_score : UrgencyLevel → ℚ
  | .critical => 1
  | .high => 3 / 4
  | .medium => 1 / 2
  | .low => 1 / 4

/-- The AI signal as the spec's design note §9 describes it: present with an
urgency level and optional confidence, or unavailable, or errored. -/
inductive Signal
  | Present (urgency : UrgencyLevel) (confidence : Option ℚ)
  | Unavailable
  | Errored
  deriving DecidableEq, Repr

/-- Modelled from the spec: the backend `effective_urgency` computation
(§4.1) is missing from the sources; `urgency_score(level) * confidence`,
confidence defaulting to 1, and 0 when the signal is absent or errored. -/
def effective_urgency : Signal → ℚ
  | .Present u c => urgency_score u * c.getD 1
  | .Unavailable => 0
  | .Errored => 0

/-- Numeric clamp into `[lo, hi]`. -/
def clamp (x lo hi : ℚ) : ℚ := max lo (min hi x)

/-- Modelled from the spec: the backend SLA reference window constant (§4.1)
is missing from the sources; the spec fixes it at 24 hours. -/
def reference_window : ℚ := 24

/-- Modelled from the spec: the backend `sla_risk` computation (§4.1) is
missing from the sources; `clamp(1 - sla_hours_remaining / reference_window, 0, 1)`. -/
def sla_risk (sla_hours_remaining : ℚ) : ℚ :=
  clamp (1 - sla_hours_remaining / reference_window) 0 1

/-- Modelled from the spec: the backend `tier_score` mapping (§4.1) is
missing from the sources; `enterprise→1.0, business→0.67, standard→0.33,
free→0.0`, any unrecognized tier defaulting to standard's weight. -/
def tier_score (tier : String) : ℚ :=
  if tier = "enterprise" then 1
  else if tier = "business" then 67 / 100
  else if tier = "standard" then 33 / 100
  else if tier = "free" then 0
  else 33 / 100

/-- Urgency weight 0.4; the value also appears verbatim in the frontend
`PriorityBreakdown` component and its displayed formula. -/
def w_urgency : ℚ := 4 / 10

/-- SLA weight 0.4; also displayed by `PriorityBreakdown`. -/
def w_sla : ℚ := 4 / 10

/-- Tier weight 0.2; also displayed by `PriorityBreakdown`. -/
def w_tier : ℚ := 2 / 10

/-- The weights the frontend `PriorityBreakdown` component attaches to its
three score components (AI Urgency Analysis, SLA Risk, Customer Tier), in
that order, from `CreateTicketForm.tsx`. -/
def componentWeights : List ℚ := [4 / 10, 4 / 10, 2 / 10]

/-- The breakdown record the engine returns and the frontend displays
(`priority_breakdown` shape in `PriorityBreakdown`'s props). -/
structure Breakdown where
  effective_urgency : ℚ
  sla_risk : ℚ
  customer_tier_weight : ℚ
  final_score : ℚ
  urgency_contribution : ℚ
  sla_contribution : ℚ
  tier_contribution : ℚ
  deriving DecidableEq, Repr

/-- Modelled from the spec: the backend Priority Engine scoring (§4.2) is
missing from the sources; contributions are the normalized values times the
fixed weights, the final score their sum — the formula the frontend
`PriorityBreakdown` component displays as
`Priority = (0.4 × Urgency) + (0.4 × SLA) + (0.2 × Tier)`. -/
def compute_breakdown (u s t : ℚ) : Breakdown :=
  { effective_urgency := u
    sla_risk := s
    customer_tier_weight := t
    final_score := u * w_urgency + s * w_sla + t * w_tier
    urgency_contribution := u * w_urgency
    sla_contribution := s * w_sla
    tier_contribution := t * w_tier }

/-- Modelled from the spec: the backend banding of the final score (§4.2) is
missing from the sources; inclusive lower bounds 0.8 / 0.6 / 0.4 on the unit
scale, matching the frontend preview `getPriorityBand` on the percent scale. -/
def band_of_score (final_score : ℚ) : Band :=
  if final_score ≥ 8 / 10 then .P0
  else if final_score ≥ 6 / 10 then .P1
  else if final_score ≥ 4 / 10 then .P2
  else .P3

/-! ## Frontend: data model -/

/-- The AI signal object stored on a ticket (`llm_signals`), as the frontend
consumes it: an optional urgency, an optional confidence, and an error flag
(`Bool` models the truthiness test `!ticket.llm_signals.error`). -/
structure LlmSignals where
  urgency : Option UrgencyLevel
  confidence : Option ℚ
  summary : Option String
  error : Bool
  deriving DecidableEq, Repr

/-- The ticket record as the frontend components type it (`TicketCard`,
`TicketDetailModal`, `api.ts`).  `priority_score` is `Option ℚ` because the
components guard against it being NaN or missing. -/
structure Ticket where
  ticket_id : String
  text : String
  customer_tier : String
  sla_hours_remaining : ℚ
  created_at : String
  priority_score : Option ℚ
  priority_band : String
  llm_signals : Option LlmSignals
  manual_override : Bool
  override_priority : Option ℚ
  override_reason : Option String
  override_by : Option String
  override_at : Option String
  effective_priority : ℚ
  status : String
  deriving DecidableEq, Repr

/-! ## Frontend: OverrideForm (`validate`, `handleSubmit`, `getPriorityBand`) -/

/-- The OverrideForm's input state at submission time: `priority` is the
result of `parseFloat` on the priority text field (`none` = NaN), `reason`
and `agentName` are the raw text inputs. -/
structure OverrideFormState where
  priority : Option ℚ
  reason : String
  agentName : String
  deriving DecidableEq, Repr

/-- The payload `handleSubmit` passes to `onSubmit`:
`{ priority, reason, by }`. -/
structure OverridePayload where
  priority : ℚ
  reason : String
  by_ : String
  deriving DecidableEq, Repr

/-- `OverrideForm.validate`: the priority number must parse (not NaN) and lie
in `[0, 100]`, the trimmed reason must have length ≥ 5, and the trimmed agent
name length ≥ 2; valid exactly when no error entry is produced. -/
def validate (s : OverrideFormState) : Bool :=
  (match s.priority with
   | none => false
   | some p => decide (0 ≤ p) && decide (p ≤ 100))
  && decide (5 ≤ (jsTrim s.reason).length)
  && decide (2 ≤ (jsTrim s.agentName).length)

/-- `OverrideForm.handleSubmit`: returns early (no submission) when
`validate` fails, otherwise submits the parsed priority divided by 100 and
the trimmed reason and agent name. -/
def handleSubmit (s : OverrideFormState) : Option OverridePayload :=
  if validate s then
    match s.priority with
    | some p => some { priority := p / 100, reason := jsTrim s.reason, by_ := jsTrim s.agentName }
    | none => none
  else none

/-- Band plus display color, as `OverrideForm.getPriorityBand` returns it. -/
structure BandInfo where
  band : String
  color : String
  deriving DecidableEq, Repr

/-- `OverrideForm.getPriorityBand`: band preview on the 0–100 percent scale,
inclusive lower bounds 80 / 60 / 40. -/
def getPriorityBand (priorityNum : ℚ) : BandInfo :=
  if priorityNum ≥ 80 then { band := "P0", color := "text-red-600" }
  else if priorityNum ≥ 60 then { band := "P1", color := "text-orange-600" }
  else if priorityNum ≥ 40 then { band := "P2", color := "text-yellow-600" }
  else { band := "P3", color := "text-green-600" }

/-! ## Frontend: PriorityBadge -/

/-- `PriorityBadge.getBadgeClass`: CSS class per band string, with a default
style for anything outside `P0`…`P3`. -/
def getBadgeClass (priorityBand : String) : String :=
  if priorityBand = "P0" then "badge-p0"
  else if priorityBand = "P1" then "badge-p1"
  else if priorityBand = "P2" then "badge-p2"
  else if priorityBand = "P3" then "badge-p3"
  else "bg-gray-100 text-gray-800 border border-gray-200"

/-- `PriorityBadge`'s `displayScore`: `(score * 100).toFixed(0)` when the
score is a real number, the string `'0'` when it is NaN or not a number. -/
def displayScore : Option ℚ → String
  | some v => jsToFixed0 (v * 100)
  | none => "0"

/-- What the `PriorityBadge` component renders: its badge class and the two
texts inside the span (the band string and the displayed score). -/
structure PriorityBadgeView where
  badgeClass : String
  band : String
  scoreText : String
  deriving DecidableEq, Repr

/-- The `PriorityBadge` component as a pure view function of its props. -/
def PriorityBadge (priorityBand : String) (score : Option ℚ) : PriorityBadgeView :=
  { badgeClass := getBadgeClass priorityBand
    band := priorityBand
    scoreText := displayScore score }

/-! ## Frontend: UrgencyIndicator -/

/-- The per-level display record `UrgencyIndicator.getUrgencyDisplay`
returns. -/
structure UrgencyDisplay where
  text : String
  color : String
  bg : String
  icon : String
  deriving DecidableEq, Repr

/-- `UrgencyIndicator.getUrgencyDisplay` on the four known urgency levels. -/
def getUrgencyDisplay : UrgencyLevel → UrgencyDisplay
  | .critical => { text := "Critical", color := "text-red-700", bg := "bg-red-100", icon := "🔴" }
  | .high => { text := "High", color := "text-orange-700", bg := "bg-orange-100", icon := "🟠" }
  | .medium => { text := "Medium", color := "text-yellow-700", bg := "bg-yellow-100", icon := "🟡" }
  | .low => { text := "Low", color := "text-green-700", bg := "bg-green-100", icon := "🟢" }

/-- What the `UrgencyIndicator` component renders: the unavailable message,
or the urgency display plus the optional rounded confidence percentage. -/
inductive UrgencyIndicatorView
  | unavailable (text : String)
  | indicator (display : UrgencyDisplay) (confidencePercent : Option Int)
  deriving DecidableEq, Repr

/-- The `UrgencyIndicator` component as a pure view function: a null urgency
renders the italic "AI analysis unavailable" message; otherwise the display
for the level, with `Math.round(confidence * 100)` when confidence is
neither null nor undefined. -/
def UrgencyIndicator (urgency : Option UrgencyLevel) (confidence : Option ℚ) : UrgencyIndicatorView :=
  match urgency with
  | none => .unavailable "AI analysis unavailable"
  | some u => .indicator (getUrgencyDisplay u) (confidence.map (fun c => jsRound (c * 100)))

/-! ## Frontend: TicketCard -/

/-- A tier badge's label and color, as `TicketCard.getCustomerTierBadge`
builds it. -/
structure TierBadge where
  label : String
  color : String
  deriving DecidableEq, Repr

/-- The `tierMapping` record literal inside `getCustomerTierBadge`:
recognized tiers map to their badge, everything else to nothing. -/
def tierMapping (tier : String) : Option TierBadge :=
  if tier = "enterprise" then some { label := "TIER-1", color := "bg-purple-100 text-purple-800 border-purple-200" }
  else if tier = "business" then some { label := "TIER-2", color := "bg-blue-100 text-blue-800 border-blue-200" }
  else if tier = "standard" then some { label := "TIER-3", color := "bg-gray-100 text-gray-800 border-gray-200" }
  else if tier = "free" then some { label := "TIER-4", color := "bg-slate-100 text-slate-800 border-slate-200" }
  else none

/-- `TicketCard.getCustomerTierBadge`:
`tierMapping[ticket.customer_tier] || tierMapping.standard`. -/
def getCustomerTierBadge (customer_tier : String) : TierBadge :=
  (tierMapping customer_tier).getD
    { label := "TIER-3", color := "bg-gray-100 text-gray-800 border-gray-200" }

/-- What `TicketCard.getSLAWarning` renders: the red high-risk warning when
`sla_hours_remaining < 4`, otherwise the plain gray SLA label; both show the
remaining hours. -/
structure SLAView where
  highRisk : Bool
  hours : ℚ
  deriving DecidableEq, Repr

/-- `TicketCard.getSLAWarning` as a pure view function of the ticket's
remaining SLA hours. -/
def getSLAWarning (sla_hours_remaining : ℚ) : SLAView :=
  { highRisk := decide (sla_hours_remaining < 4), hours := sla_hours_remaining }

/-- The header row of `TicketCard`: the priority badge (fed from
`priority_band` and `priority_score || 0`), whether the MANUAL OVERRIDE
marker span is shown, and the ticket id label. -/
structure TicketCardHeaderView where
  badge : PriorityBadgeView
  overrideMarker : Bool
  ticketIdLabel : String
  deriving DecidableEq, Repr

/-- The `TicketCard` header as a pure view function of the ticket. -/
def ticketCardHeader (t : Ticket) : TicketCardHeaderView :=
  { badge := PriorityBadge t.priority_band (some (jsNumOr t.priority_score 0))
    overrideMarker := t.manual_override
    ticketIdLabel := t.ticket_id }

/-- Whether `TicketCard` renders the AI Analysis block:
`ticket.llm_signals && !ticket.llm_signals.error`. -/
def ticketCardShowsAIBlock (t : Ticket) : Bool :=
  match t.llm_signals with
  | none => false
  | some s => !s.error

/-! ## Frontend: TicketDetailModal -/

/-- `TicketDetailModal.getTierDisplay`: `tierMap[tier] || tier.toUpperCase()`
(uppercasing modelled for ASCII tier strings). -/
def getTierDisplay (tier : String) : String :=
  if tier = "enterprise" then "TIER-1"
  else if tier = "business" then "TIER-2"
  else if tier = "standard" then "TIER-3"
  else if tier = "free" then "TIER-4"
  else jsToUpperCase tier

/-- The priority badge the detail modal's overview tab renders:
`PriorityBadge` fed from `priority_band` and `priority_score`. -/
def detailModalBadge (t : Ticket) : PriorityBadgeView :=
  PriorityBadge t.priority_band t.priority_score

/-! ## Spec-modelled backend: override application -/

/-- Modelled from the spec: the backend `apply_override` (§4.2) is missing
from the sources; it sets the four override fields atomically, flips
`manual_override`, and makes the override the effective priority, leaving
the computed score, band and breakdown intact. -/
def apply_override (t : Ticket) (pl : OverridePayload) (now : String) : Ticket :=
  { t with
    manual_override := true
    override_priority := some pl.priority
    override_reason := some pl.reason
    override_by := some pl.by_
    override_at := some now
    effective_priority := pl.priority }

/-- The submission pipeline from the OverrideForm: when `handleSubmit`
rejects (returns nothing), no request is made and the ticket is unchanged;
when it submits, the backend applies the override. -/
def submitOverride (t : Ticket) (s : OverrideFormState) (now : String) : Ticket :=
  match handleSubmit s with
  | none => t
  | some pl => apply_override t pl now

/-! ## Claims -/

/-- C1: the priority score combines the three normalized signals with the
fixed weights 0.4 (urgency), 0.4 (SLA risk) and 0.2 (tier) — the same
weights the frontend `PriorityBreakdown` component attaches to its three
components — the weights sum to 1.0, and for every breakdown record the
three contributions sum exactly to the final score. -/
theorem C1_weights_and_contribution_identity :
    componentWeights = [w_urgency, w_sla, w_tier]
      ∧ w_urgency = 4 / 10 ∧ w_sla = 4 / 10 ∧ w_tier = 2 / 10
      ∧ w_urgency + w_sla + w_tier = 1
      ∧ ∀ u s t : ℚ,
          (compute_breakdown u s t).urgency_contribution
              + (compute_breakdown u s t).sla_contribution
              + (compute_breakdown u s t).tier_contribution
            = (compute_breakdown u s t).final_score := by
  refine ⟨rfl, rfl, rfl, rfl, ?_, fun u s t => rfl⟩
  norm_num [w_urgency, w_sla, w_tier]

/-- C2: banding is a total, non-overlapping partition of the score range
with inclusive lower bounds — `[0.8, ∞) → P0`, `[0.6, 0.8) → P1`,
`[0.4, 0.6) → P2`, `(-∞, 0.4) → P3` — and the `OverrideForm` band preview
applies the same thresholds on the 0–100 percent scale. -/
theorem C2_banding_partition (x : ℚ) :
    (band_of_score x = Band.P0 ↔ 8 / 10 ≤ x)
      ∧ (band_of_score x = Band.P1 ↔ 6 / 10 ≤ x ∧ x < 8 / 10)
      ∧ (band_of_score x = Band.P2 ↔ 4 / 10 ≤ x ∧ x < 6 / 10)
      ∧ (band_of_score x = Band.P3 ↔ x < 4 / 10)
      ∧ (getPriorityBand (x * 100)).band = (band_of_score x).label := by
  have h80 : ((80 : ℚ) ≤ x * 100) ↔ ((8 : ℚ) / 10 ≤ x) := by
    constructor <;> intro h <;> linarith
  have h60 : ((60 : ℚ) ≤ x * 100) ↔ ((6 : ℚ) / 10 ≤ x) := by
    constructor <;> intro h <;> linarith
  have h40 : ((40 : ℚ) ≤ x * 100) ↔ ((4 : ℚ) / 10 ≤ x) := by
    constructor <;> intro h <;> linarith
  unfold band_of_score getPriorityBand
  simp only [ge_iff_le, h80, h60, h40]
  split_ifs with h1 h2 h3
  · exact ⟨iff_of_true rfl h1,
      iff_of_false (by decide) (by rintro ⟨-, h⟩; linarith),
      iff_of_false (by decide) (by rintro ⟨-, h⟩; linarith),
      iff_of_false (by decide) (by intro h; linarith),
      rfl⟩
  · exact ⟨iff_of_false (by decide) (fun h => h1 h),
      iff_of_true rfl ⟨h2, not_le.mp h1⟩,
      iff_of_false (by decide) (by rintro ⟨-, h⟩; linarith),
      iff_of_false (by decide) (by intro h; linarith),
      rfl⟩
  · exact ⟨iff_of_false (by decide) (fun h => h1 h),
      iff_of_false (by decide) (by rintro ⟨h, -⟩; exact h2 h),
      iff_of_true rfl ⟨h3, not_le.mp h2⟩,
      iff_of_false (by decide) (by intro h; linarith),
      rfl⟩
  · exact ⟨iff_of_false (by decide) (fun h => h1 h),
      iff_of_false (by decide) (by rintro ⟨h, -⟩; exact h2 h),
      iff_of_false (by decide) (by rintro ⟨h, -⟩; exact h3 h),
      iff_of_true rfl (not_le.mp h3),
      rfl⟩

/-- C3 counterexample: on tier `enterprise`, one SLA hour remaining and a
critical urgency signal at confidence 1, the weighted formula yields the
final score 59/60 ≈ 0.983 — more than 0.1 away from the claimed ≈ 0.783 —
and the banding maps it to P0, not P1. -/
theorem C3_scenario_counterexample :
    (compute_breakdown (effective_urgency (Signal.Present UrgencyLevel.critical (some 1)))
          (sla_risk 1) (tier_score "enterprise")).final_score = 59 / 60
      ∧ 783 / 1000 + 1 / 10
          < (compute_breakdown (effective_urgency (Signal.Present UrgencyLevel.critical (some 1)))
              (sla_risk 1) (tier_score "enterprise")).final_score
      ∧ band_of_score
            (compute_breakdown (effective_urgency (Signal.Present UrgencyLevel.critical (some 1)))
              (sla_risk 1) (tier_score "enterprise")).final_score
          ≠ Band.P1 := by
  have hf : (compute_breakdown (effective_urgency (Signal.Present UrgencyLevel.critical (some 1)))
      (sla_risk 1) (tier_score "enterprise")).final_score = 59 / 60 := by
    norm_num [compute_breakdown, effective_urgency, urgency_score, sla_risk, clamp,
      reference_window, tier_score, w_urgency, w_sla, w_tier, min_def, max_def]
  refine ⟨hf, by rw [hf]; norm_num, ?_⟩
  rw [hf]
  unfold band_of_score
  rw [if_pos (by norm_num)]
  decide

/-- C3 amended: for tier `enterprise` (weight 1.0), one SLA hour remaining
with reference window 24 (`sla_risk = 23/24 ≈ 0.958`) and a critical urgency
signal at confidence 1 (`effective_urgency = 1`), the weighted formula
yields the final score 59/60 ≈ 0.983, which the banding maps to P0. -/
theorem C3_scenario_amended :
    (compute_breakdown (effective_urgency (Signal.Present UrgencyLevel.critical (some 1)))
          (sla_risk 1) (tier_score "enterprise")).final_score = 59 / 60
      ∧ sla_risk 1 = 23 / 24
      ∧ effective_urgency (Signal.Present UrgencyLevel.critical (some 1)) = 1
      ∧ tier_score "enterprise" = 1
      ∧ band_of_score
            (compute_breakdown (effective_urgency (Signal.Present UrgencyLevel.critical (some 1)))
              (sla_risk 1) (tier_score "enterprise")).final_score
          = Band.P0 := by
  have hf : (compute_breakdown (effective_urgency (Signal.Present UrgencyLevel.critical (some 1)))
      (sla_risk 1) (tier_score "enterprise")).final_score = 59 / 60 := by
    norm_num [compute_breakdown, effective_urgency, urgency_score, sla_risk, clamp,
      reference_window, tier_score, w_urgency, w_sla, w_tier, min_def, max_def]
  refine ⟨hf, ?_, ?_, ?_, ?_⟩
  · norm_num [sla_risk, clamp, reference_window, min_def, max_def]
  · norm_num [effective_urgency, urgency_score]
  · norm_num [tier_score]
  · rw [hf]
    unfold band_of_score
    rw [if_pos (by norm_num)]

/-- C4: the override form rejects, without submitting, any request whose
priority input does not parse or falls outside the 0–100 percent bound
(equivalently outside `[0, 1]` on the unit scale), or whose trimmed reason
is shorter than 5 characters, or whose trimmed agent name is shorter than 2;
on a rejected request `handleSubmit` produces no payload and the ticket is
unchanged. -/
theorem C4_override_rejects_invalid (s : OverrideFormState) (t : Ticket) (now : String)
    (h : s.priority = none
        ∨ (∃ p, s.priority = some p ∧ (p < 0 ∨ 100 < p))
        ∨ (jsTrim s.reason).length < 5
        ∨ (jsTrim s.agentName).length < 2) :
    handleSubmit s = none ∧ submitOverride t s now = t := by
  have hv : validate s = false := by
    unfold validate
    rcases h with h | ⟨p, hp, hb | hb⟩ | h | h
    · rw [h]; simp
    · have h0 : ¬ (0 : ℚ) ≤ p := not_le.mpr hb
      rw [hp]; simp [h0]
    · have h0 : ¬ p ≤ (100 : ℚ) := not_le.mpr hb
      rw [hp]; simp [h0]
    · have h5 : ¬ 5 ≤ (jsTrim s.reason).length := not_le.mpr h
      simp [h5]
    · have h2 : ¬ 2 ≤ (jsTrim s.agentName).length := not_le.mpr h
      simp [h2]
  have hs : handleSubmit s = none := by
    unfold handleSubmit
    rw [hv]
    simp
  exact ⟨hs, by unfold submitOverride; rw [hs]⟩

/-- A concrete ticket used to instantiate ticket-indexed theorems. -/
def sampleTicket : Ticket :=
  { ticket_id := "TCK-1"
    text := "Cannot log in to the dashboard since this morning"
    customer_tier := "enterprise"
    sla_hours_remaining := 2
    created_at := "2026-01-01T09:00:00Z"
    priority_score := some (3 / 10)
    priority_band := "P3"
    llm_signals := none
    manual_override := false
    override_priority := none
    override_reason := none
    override_by := none
    override_at := none
    effective_priority := 3 / 10
    status := "open" }

/-- C4 witness: a priority of -10 percent (-0.1 on the unit scale) with an
empty reason and agent name is rejected and leaves the sample ticket
unchanged. -/
theorem C4_override_rejects_invalid_witness :
    handleSubmit { priority := some (-10), reason := "", agentName := "" } = none
      ∧ submitOverride sampleTicket
          { priority := some (-10), reason := "", agentName := "" } "2026-01-02T10:00:00Z"
        = sampleTicket :=
  C4_override_rejects_invalid _ sampleTicket _
    (Or.inr (Or.inl ⟨-10, rfl, Or.inl (by norm_num)⟩))

/-- C5: the ticket card and detail modal derive the priority badge solely
from `priority_band` and `priority_score`, render the manual override as a
separate MANUAL OVERRIDE marker exactly when `manual_override` is set, and
changing the override value (or any override field, or the effective
priority) leaves the rendered badge untouched. -/
theorem C5_badge_from_computed_only (t : Ticket) (v : Option ℚ) (r b a : Option String) (e : ℚ) :
    (ticketCardHeader t).badge = PriorityBadge t.priority_band (some (jsNumOr t.priority_score 0))
      ∧ (ticketCardHeader t).overrideMarker = t.manual_override
      ∧ detailModalBadge t = PriorityBadge t.priority_band t.priority_score
      ∧ ticketCardHeader
            { t with override_priority := v, override_reason := r, override_by := b,
                     override_at := a, effective_priority := e }
          = ticketCardHeader t
      ∧ detailModalBadge
            { t with override_priority := v, override_reason := r, override_by := b,
                     override_at := a, effective_priority := e }
          = detailModalBadge t :=
  ⟨rfl, rfl, rfl, rfl, rfl⟩

/-- C6: with a null urgency the `UrgencyIndicator` renders the
"AI analysis unavailable" message — which carries the text
"analysis unavailable" — instead of any numeric urgency display, and the
ticket card suppresses the whole AI-analysis block when the signal carries
an error flag (or is absent altogether). -/
theorem C6_analysis_unavailable (c : Option ℚ) (t : Ticket) (s : LlmSignals) :
    UrgencyIndicator none c = UrgencyIndicatorView.unavailable "AI analysis unavailable"
      ∧ (∃ pre post, "AI analysis unavailable" = pre ++ "analysis unavailable" ++ post)
      ∧ ticketCardShowsAIBlock { t with llm_signals := some { s with error := true } } = false
      ∧ ticketCardShowsAIBlock { t with llm_signals := none } = false :=
  ⟨rfl, ⟨"AI ", "", by decide⟩, rfl, rfl⟩

/-- C7 counterexample: the detail modal's tier display does not substitute
the standard mapping for the unrecognized tier "gold" — it renders "GOLD",
not standard's "TIER-3". -/
theorem C7_tier_display_counterexample :
    getTierDisplay "gold" = "GOLD"
      ∧ getTierDisplay "standard" = "TIER-3"
      ∧ getTierDisplay "gold" ≠ getTierDisplay "standard" := by
  refine ⟨?_, ?_, ?_⟩ <;> decide

/-- C7 amended: for every tier string outside enterprise / business /
standard / free, the tier badge renderer substitutes the standard mapping
and the normalizer's tier weight defaults to standard's weight, neither
failing; the detail modal's tier display instead falls back to the
uppercased raw tier string. -/
theorem C7_unrecognized_tier_fallback (tier : String)
    (h : tier ≠ "enterprise" ∧ tier ≠ "business" ∧ tier ≠ "standard" ∧ tier ≠ "free") :
    getCustomerTierBadge tier = getCustomerTierBadge "standard"
      ∧ tier_score tier = tier_score "standard"
      ∧ getTierDisplay tier = jsToUpperCase tier := by
  obtain ⟨h1, h2, h3, h4⟩ := h
  refine ⟨?_, ?_, ?_⟩
  · unfold getCustomerTierBadge tierMapping
    simp [h1, h2, h3, h4]
  · unfold tier_score
    simp [h1, h2, h3, h4]
  · unfold getTierDisplay
    simp [h1, h2, h3, h4]

/-- C7 witness: the unrecognized tier "gold" gets standard's badge and
standard's weight, and the detail modal shows it uppercased. -/
theorem C7_unrecognized_tier_fallback_witness :
    getCustomerTierBadge "gold" = getCustomerTierBadge "standard"
      ∧ tier_score "gold" = tier_score "standard"
      ∧ getTierDisplay "gold" = jsToUpperCase "gold" :=
  C7_unrecognized_tier_fallback "gold" ⟨by decide, by decide, by decide, by decide⟩

/-- C8: the ticket card renders the red high-risk SLA warning exactly when
`sla_hours_remaining` is below 4 hours, and at or below that cutoff the
clamped risk formula with the 24-hour reference window yields risk at least
5/6 ≈ 0.833 (≥ 0.83), with exactly 5/6 at the 4-hour boundary. -/
theorem C8_sla_warning_cutoff :
    (∀ x : ℚ, ((getSLAWarning x).highRisk = true ↔ x < 4))
      ∧ (∀ x : ℚ, x ≤ 4 → 5 / 6 ≤ sla_risk x)
      ∧ sla_risk 4 = 5 / 6
      ∧ (83 : ℚ) / 100 ≤ 5 / 6 := by
  refine ⟨?_, ?_, ?_, by norm_num⟩
  · intro x
    simp [getSLAWarning]
  · intro x hx
    unfold sla_risk clamp reference_window
    have hv : (5 : ℚ) / 6 ≤ 1 - x / 24 := by linarith
    calc (5 : ℚ) / 6 ≤ min 1 (1 - x / 24) := le_min (by norm_num) hv
      _ ≤ max 0 (min 1 (1 - x / 24)) := le_max_right _ _
  · norm_num [sla_risk, clamp, reference_window, min_def, max_def]

/-- C8 witness: at 2 remaining hours the high-risk warning is shown and the
modelled risk is at least 5/6. -/
theorem C8_sla_warning_cutoff_witness :
    (getSLAWarning 2).highRisk = true ∧ 5 / 6 ≤ sla_risk 2 :=
  ⟨(C8_sla_warning_cutoff.1 2).mpr (by norm_num),
   C8_sla_warning_cutoff.2.1 2 (by norm_num)⟩

/-- C9: whenever the override form's validation lets a submission through,
the payload's priority is the parsed percent input divided by 100 and lies
in `[0, 1]`, its reason is the trimmed input with length at least 5, and its
agent identifier is the trimmed name with length at least 2. -/
theorem C9_valid_submission_payload (s : OverrideFormState) (pl : OverridePayload)
    (h : handleSubmit s = some pl) :
    (∃ p, s.priority = some p ∧ pl.priority = p / 100)
      ∧ 0 ≤ pl.priority ∧ pl.priority ≤ 1
      ∧ pl.reason = jsTrim s.reason ∧ 5 ≤ pl.reason.length
      ∧ pl.by_ = jsTrim s.agentName ∧ 2 ≤ pl.by_.length := by
  unfold handleSubmit at h
  split_ifs at h with hv
  cases hp : s.priority with
  | none => rw [hp] at h; exact absurd h (by simp)
  | some p =>
    rw [hp] at h
    have hpl : pl = { priority := p / 100, reason := jsTrim s.reason, by_ := jsTrim s.agentName } :=
      (Option.some.injEq _ _ ▸ h).symm
    unfold validate at hv
    rw [hp] at hv
    simp only [Bool.and_eq_true, decide_eq_true_eq] at hv
    obtain ⟨⟨⟨h0, h100⟩, h5⟩, h2⟩ := hv
    subst hpl
    refine ⟨⟨p, rfl, rfl⟩, ?_, ?_, rfl, h5, rfl, h2⟩
    · exact div_nonneg h0 (by norm_num)
    · rw [div_le_one (by norm_num : (0 : ℚ) < 100)]
      exact h100

/-- The override form state used to instantiate the C9 theorem. -/
def witnessForm : OverrideFormState :=
  { priority := some 75, reason := " needs escalation ", agentName := " Alice " }

/-- The payload the override form submits for `witnessForm`. -/
def witnessPayload : OverridePayload :=
  { priority := 3 / 4, reason := "needs escalation", by_ := "Alice" }

/-- C9 witness: the concrete input 75 percent, reason " needs escalation "
and agent " Alice " passes validation and yields the trimmed, unit-scale
payload. -/
theorem C9_valid_submission_payload_witness :
    (∃ p, witnessForm.priority = some p ∧ witnessPayload.priority = p / 100)
      ∧ 0 ≤ witnessPayload.priority ∧ witnessPayload.priority ≤ 1
      ∧ witnessPayload.reason = jsTrim witnessForm.reason
      ∧ 5 ≤ witnessPayload.reason.length
      ∧ witnessPayload.by_ = jsTrim witnessForm.agentName
      ∧ 2 ≤ witnessPayload.by_.length :=
  C9_valid_submission_payload witnessForm witnessPayload (by
    unfold handleSubmit witnessForm witnessPayload
    rw [show validate { priority := some 75, reason := " needs escalation ", agentName := " Alice " } = true from by
      simp [validate, jsTrim, dropWhitespaceLeft]
      decide]
    simp [jsTrim, dropWhitespaceLeft]
    norm_num)

/-- C10: the priority badge renderer is total on degenerate input — a NaN
or non-numeric score is displayed as the string "0", and any band string
outside P0–P3 receives the default gray badge style. -/
theorem C10_badge_degenerate_input (band : String)
    (h : band ≠ "P0" ∧ band ≠ "P1" ∧ band ≠ "P2" ∧ band ≠ "P3") :
    displayScore none = "0"
      ∧ (PriorityBadge band none).scoreText = "0"
      ∧ (PriorityBadge band none).badgeClass = "bg-gray-100 text-gray-800 border border-gray-200" := by
  obtain ⟨h0, h1, h2, h3⟩ := h
  refine ⟨rfl, rfl, ?_⟩
  unfold PriorityBadge getBadgeClass
  simp [h0, h1, h2, h3]

/-- C10 witness: the unknown band "P9" with a NaN score renders the default
style and the score text "0". -/
theorem C10_badge_degenerate_input_witness :
    displayScore none = "0"
      ∧ (PriorityBadge "P9" none).scoreText = "0"
      ∧ (PriorityBadge "P9" none).badgeClass = "bg-gray-100 text-gray-800 border border-gray-200" :=
  C10_badge_degenerate_input "P9" ⟨by decide, by decide, by decide, by decide⟩

end AITicket
